import Mathlib

/-!
Shallow embedding of `src/snowpark_pipeline.py`, a Snowflake/Snowpark loader
script.  The script reads seven configuration values from the environment at
module import (lines 11-17), builds three fully qualified object names
(lines 20-22), and its single entry point `main` (lines 28-100) issues six SQL
statements in a fixed order — create database, create schema, create file
format, create stage, create table, COPY INTO — and then reads the table back,
adds two cast columns (`Amount_num`, `Profit_num`), and returns the first ten
rows.

The embedding keeps the statements the script issues as data (`Stmt`), and
gives them an executable semantics over an explicit warehouse state
(`Warehouse`), following standard Snowflake semantics for the specific
statements that appear in the source: `CREATE ... IF NOT EXISTS` is an
idempotent insert, and `COPY INTO ... ON_ERROR = CONTINUE` parses each record
of each matching staged file against the target column types and skips records
that fail to parse.  The warehouse-side regular-expression matcher for the
COPY `PATTERN` clause is external to the script, so the semantics is
parameterised by an arbitrary matcher `m : String → String → Bool`.
-/

/-- Environment: a partial map from variable names to string values, the
shallow embedding of `os.environ` as consulted by `os.getenv`. -/
def Env : Type := String → Option String

/-- `os.getenv(key, default)` (source lines 11-17): the environment value when
set, the hardcoded default otherwise. -/
def getenvD (e : Env) (key dflt : String) : String :=
  (e key).getD dflt

/-- The configuration bundle read at module import, source lines 11-17. -/
structure Config where
  db : String
  schema : String
  fileFormatName : String
  stageName : String
  tableName : String
  s3Url : String
  copyPattern : String
deriving DecidableEq, Repr

/-- Module-import-time configuration (source lines 11-17), each field from the
environment with its hardcoded default. -/
def config (e : Env) : Config where
  db := getenvD e "SF_DB" "DATA_PIPELINE_DB"
  schema := getenvD e "SF_SCHEMA" "CSV_FILES"
  fileFormatName := getenvD e "SF_FILE_FORMAT" "csv_format"
  stageName := getenvD e "SF_STAGE" "aws_stage"
  tableName := getenvD e "SF_TABLE" "ORDERS"
  s3Url := getenvD e "S3_URL" "s3://bucketsnowflakes3/"
  copyPattern := getenvD e "COPY_PATTERN" ".*Order.*"

/-- `FQ_FILE_FORMAT` (source line 20). -/
def fqFileFormat (c : Config) : String :=
  c.db ++ "." ++ c.schema ++ "." ++ c.fileFormatName

/-- `FQ_STAGE` (source line 21). -/
def fqStage (c : Config) : String :=
  c.db ++ "." ++ c.schema ++ "." ++ c.stageName

/-- `FQ_TABLE` (source line 22). -/
def fqTable (c : Config) : String :=
  c.db ++ "." ++ c.schema ++ "." ++ c.tableName

/-- The parameters of a `CREATE FILE FORMAT` statement as issued on source
lines 44-48: `TYPE = CSV`, `FIELD_DELIMITER = ch`, `SKIP_HEADER = n`,
`EMPTY_FIELD_AS_NULL = b`. -/
structure FileFormatSpec where
  ftype : String
  fieldDelimiter : String
  skipHeader : Nat
  emptyFieldAsNull : Bool
deriving DecidableEq, Repr

/-- The six SQL statements the script can issue, abstracted from the f-strings
of source lines 37-88.  Each constructor carries exactly the interpolated
values plus the literal clause values of the corresponding statement. -/
inductive Stmt where
  | createDatabase (name : String)
  | createSchema (db schema : String)
  | createFileFormat (name : String) (spec : FileFormatSpec)
  | createStage (name url formatName : String)
  | createTable (name : String) (columns : List (String × String))
  | copyInto (table stage formatName pattern onError : String)
deriving DecidableEq, Repr

/-- The column list of the `CREATE TABLE` statement, source lines 66-73. -/
def ordersColumns : List (String × String) :=
  [("ID", "STRING"), ("Amount", "NUMBER"), ("Profit", "NUMBER"),
   ("Quantity", "NUMBER"), ("Category", "STRING"), ("Sub_Category", "STRING")]

/-- The file-format parameters literally present on source lines 45-48. -/
def csvFormatSpec : FileFormatSpec :=
  { ftype := "CSV", fieldDelimiter := ",", skipHeader := 1,
    emptyFieldAsNull := true }

/-- The fixed, branch-free sequence of statements `main` issues, in source
order: lines 37, 38, 41-50, 53-60, 63-75, 79-88. -/
def statements (c : Config) : List Stmt :=
  [ Stmt.createDatabase c.db
  , Stmt.createSchema c.db c.schema
  , Stmt.createFileFormat (fqFileFormat c) csvFormatSpec
  , Stmt.createStage (fqStage c) c.s3Url (fqFileFormat c)
  , Stmt.createTable (fqTable c) ordersColumns
  , Stmt.copyInto (fqTable c) (fqStage c) (fqFileFormat c) c.copyPattern
      "CONTINUE" ]

/-- Rendering of a statement back to (whitespace-normalised, unquoted) SQL
text, following the f-string templates of source lines 37-88. -/
def render : Stmt → String
  | Stmt.createDatabase n => "CREATE DATABASE IF NOT EXISTS " ++ n
  | Stmt.createSchema db sch => "CREATE SCHEMA IF NOT EXISTS " ++ db ++ "." ++ sch
  | Stmt.createFileFormat n spec =>
      "CREATE FILE FORMAT IF NOT EXISTS " ++ n ++ " TYPE = " ++ spec.ftype ++
      " FIELD_DELIMITER = " ++ spec.fieldDelimiter ++
      " SKIP_HEADER = " ++ toString spec.skipHeader ++
      " EMPTY_FIELD_AS_NULL = " ++ (if spec.emptyFieldAsNull then "TRUE" else "FALSE")
  | Stmt.createStage n url ff =>
      "CREATE STAGE IF NOT EXISTS " ++ n ++ " URL = " ++ url ++
      " FILE_FORMAT = (FORMAT_NAME = " ++ ff ++ ")"
  | Stmt.createTable n cols =>
      "CREATE TABLE IF NOT EXISTS " ++ n ++ "(" ++
      String.intercalate ", " (cols.map (fun p => p.1 ++ " " ++ p.2)) ++ ")"
  | Stmt.copyInto t s f p e =>
      "COPY INTO " ++ t ++ " FROM @" ++ s ++
      " FILE_FORMAT = (FORMAT_NAME = " ++ f ++ ") PATTERN = " ++ p ++
      " ON_ERROR = " ++ e

/-- A row of the `ORDERS` table, whose columns are fixed by the `CREATE TABLE`
statement of source lines 66-73: `ID STRING, Amount NUMBER, Profit NUMBER,
Quantity NUMBER, Category STRING, Sub_Category STRING`.  `NUMBER` (default
precision/scale `NUMBER(38,0)`) values are integers; any column may be null. -/
structure TableRow where
  id : Option String
  amount : Option Int
  profit : Option Int
  quantity : Option Int
  category : Option String
  sub_category : Option String
deriving DecidableEq, Repr

/-- A staged object (a CSV file under the stage URL): its object name and its
records, each record already split into fields. -/
structure StageFile where
  name : String
  records : List (List String)
deriving DecidableEq, Repr

/-- The external state `main` acts on: the warehouse's named objects, the
rows of each table, and the object-storage contents reachable by URL. -/
structure Warehouse where
  databases : List String
  schemas : List String
  fileFormats : List (String × FileFormatSpec)
  stages : List (String × String)
  tables : List (String × List TableRow)
  storage : List (String × List StageFile)
deriving DecidableEq, Repr

/-- Numeric value of a list of decimal digit characters. -/
def natOfDigits (cs : List Char) : Nat :=
  cs.foldl (fun a c => a * 10 + (c.toNat - 48)) 0

/-- Snowflake conversion of decimal text to a `NUMBER(38,0)` value: optional
sign, integer digits, optional fraction; the result is rounded half away from
zero to an integer (so at scale 0 the value rounds up in magnitude exactly
when the first fraction digit is 5 or more).  Text that is not a plain
decimal numeral is not recognised (`none`).  (Models the warehouse-side
conversion applied by COPY when loading text into the `NUMBER` columns of
source lines 68-70; exponent forms, which the pipeline's claims never use,
are not modelled.) -/
def parseNumberText (s : String) : Option Int :=
  let cs := s.toList
  let signed : Bool × List Char :=
    match cs with
    | '-' :: rest => (true, rest)
    | '+' :: rest => (false, rest)
    | _ => (false, cs)
  let intPart := signed.2.takeWhile (fun c => c ≠ '.')
  let rest := signed.2.dropWhile (fun c => c ≠ '.')
  let fracPart : Option (List Char) :=
    match rest with
    | [] => some []
    | '.' :: fr => if fr.all Char.isDigit then some fr else none
    | _ => none
  match fracPart with
  | none => none
  | some fr =>
      if intPart.all Char.isDigit ∧ (intPart ≠ [] ∨ fr ≠ []) then
        let mag : Nat :=
          natOfDigits intPart +
            (match fr.head? with
             | some d => if 53 ≤ d.toNat then 1 else 0
             | none => 0)
        some (if signed.1 then -(mag : Int) else (mag : Int))
      else none

/-- Null handling of a raw CSV field under the file format: with
`EMPTY_FIELD_AS_NULL = TRUE` an empty field becomes null (spec section 6,
source line 48). -/
def readField (fmt : FileFormatSpec) (s : String) : Option String :=
  if fmt.emptyFieldAsNull ∧ s = "" then none else some s

/-- A raw field destined for a `NUMBER` column: null stays null, otherwise the
text must convert; `none` signals a record-level conversion error. -/
def readNumberField (fmt : FileFormatSpec) (s : String) : Option (Option Int) :=
  match readField fmt s with
  | none => some none
  | some t => (parseNumberText t).map some

/-- Parse one CSV record against the `ORDERS` column types (source lines
66-73).  `none` is a record-level error: wrong arity, or text that does not
convert to `NUMBER` in the `Amount`, `Profit` or `Quantity` column. -/
def parseRecord (fmt : FileFormatSpec) (fields : List String) : Option TableRow :=
  match fields with
  | [i, a, p, q, cat, sub] =>
      match readNumberField fmt a, readNumberField fmt p, readNumberField fmt q with
      | some av, some pv, some qv =>
          some { id := readField fmt i, amount := av, profit := pv,
                 quantity := qv, category := readField fmt cat,
                 sub_category := readField fmt sub }
      | _, _, _ => none
  | _ => none

/-- The rows one staged file contributes under `ON_ERROR = CONTINUE` (source
line 86): skip the header records (`SKIP_HEADER`, source line 47), then keep
every record that parses and skip every record that errors. -/
def fileRows (fmt : FileFormatSpec) (f : StageFile) : List TableRow :=
  (f.records.drop fmt.skipHeader).filterMap (parseRecord fmt)

/-- The rows a `COPY INTO ... PATTERN = p ON_ERROR = CONTINUE` statement loads
(source lines 82-87): resolve the stage to its URL and the named file format,
take the staged objects whose names the warehouse's matcher `m` accepts
against the pattern, and parse each in order. -/
def copyNewRows (m : String → String → Bool) (w : Warehouse)
    (stage formatName pattern : String) : List TableRow :=
  match w.stages.lookup stage, w.fileFormats.lookup formatName with
  | some url, some fmt =>
      (((w.storage.lookup url).getD []).filter
        (fun f => m pattern f.name)).flatMap (fileRows fmt)
  | _, _ => []

/-- Execution of one statement against the warehouse.  The four
`CREATE ... IF NOT EXISTS` forms are idempotent inserts: when an object of
that name already exists the statement succeeds without changing it.
`COPY INTO` appends the loaded rows to the target table. -/
def exec (m : String → String → Bool) (w : Warehouse) : Stmt → Warehouse
  | Stmt.createDatabase n =>
      if n ∈ w.databases then w
      else { w with databases := w.databases ++ [n] }
  | Stmt.createSchema db sch =>
      if (db ++ "." ++ sch) ∈ w.schemas then w
      else { w with schemas := w.schemas ++ [db ++ "." ++ sch] }
  | Stmt.createFileFormat n spec =>
      if n ∈ w.fileFormats.map Prod.fst then w
      else { w with fileFormats := w.fileFormats ++ [(n, spec)] }
  | Stmt.createStage n url _ =>
      if n ∈ w.stages.map Prod.fst then w
      else { w with stages := w.stages ++ [(n, url)] }
  | Stmt.createTable n _ =>
      if n ∈ w.tables.map Prod.fst then w
      else { w with tables := w.tables ++ [(n, [])] }
  | Stmt.copyInto t s f p _ =>
      let newRows := copyNewRows m w s f p
      { w with tables :=
          w.tables.map (fun e => if e.1 = t then (e.1, e.2 ++ newRows) else e) }

/-- A row of the returned sample: the six table columns plus the two derived
columns added by `with_column` on source lines 95-96, each
`CAST(... AS DOUBLE)` of a `NUMBER` value — exact on integers, null exactly
on null. -/
structure ResultRow where
  id : Option String
  amount : Option Int
  profit : Option Int
  quantity : Option Int
  category : Option String
  sub_category : Option String
  amount_num : Option ℚ
  profit_num : Option ℚ
deriving DecidableEq, Repr

/-- The transform of source lines 94-97: keep every column and add
`Amount_num := CAST(Amount AS DOUBLE)` and `Profit_num := CAST(Profit AS
DOUBLE)`. -/
def transformRow (r : TableRow) : ResultRow :=
  { id := r.id, amount := r.amount, profit := r.profit,
    quantity := r.quantity, category := r.category,
    sub_category := r.sub_category,
    amount_num := r.amount.map (fun n => (n : ℚ)),
    profit_num := r.profit.map (fun n => (n : ℚ)) }

/-- The column names of the returned rows: the six table columns (source
lines 66-73) followed by the two names passed to `with_column` on source
lines 95-96. -/
def resultColumnNames : List String :=
  ordersColumns.map Prod.fst ++ ["Amount_num", "Profit_num"]

/-- Everything one invocation of `main` produces: the statements it issued in
order, the warehouse state it left behind, and the list of rows it returned. -/
structure RunResult where
  trace : List Stmt
  warehouse : Warehouse
  result : List ResultRow
deriving Repr

/-- `main` (source lines 28-100): issue the six statements strictly in
sequence (each executed to completion before the next), then read the target
table, apply the two casts, and return the first ten rows
(`limit(10).collect()`, source line 100). -/
def mainRun (m : String → String → Bool) (c : Config) (w : Warehouse) :
    RunResult :=
  let w6 := (statements c).foldl (exec m) w
  let rows := ((w6.tables.lookup (fqTable c)).getD [])
  { trace := statements c
    warehouse := w6
    result := (rows.map transformRow).take 10 }

/-- The named warehouse objects (databases, schemas, file formats, stages,
table names) — the provisioned catalog, without table contents. -/
def objectsOf (w : Warehouse) :
    List String × List String × List (String × FileFormatSpec) ×
      List (String × String) × List String :=
  (w.databases, w.schemas, w.fileFormats, w.stages, w.tables.map Prod.fst)

/-- All five objects the script provisions are present in the warehouse. -/
def provisioned (c : Config) (w : Warehouse) : Prop :=
  c.db ∈ w.databases ∧
  (c.db ++ "." ++ c.schema) ∈ w.schemas ∧
  fqFileFormat c ∈ w.fileFormats.map Prod.fst ∧
  fqStage c ∈ w.stages.map Prod.fst ∧
  fqTable c ∈ w.tables.map Prod.fst

/-- An environment with every variable unset. -/
def emptyEnv : Env := fun _ => none

/-- The configuration obtained when no environment variable is set: every
field is its hardcoded default from source lines 11-17. -/
def defaultConfig : Config := config emptyEnv

/-- A pattern matcher that accepts every object name (the identity of the
warehouse-side regex engine is irrelevant to the concrete scenarios below,
which use it for a single staged file). -/
def matchAll : String → String → Bool := fun _ _ => true

/-- A fresh warehouse whose object storage holds, at the default stage URL,
one CSV file with a header record and one data record carrying amount text
`12.5` and profit text `abc` — the scenario of spec section 8's example. -/
def badProfitWarehouse : Warehouse :=
  { databases := [], schemas := [], fileFormats := [], stages := [],
    tables := [],
    storage := [("s3://bucketsnowflakes3/",
      [{ name := "Orders.csv",
         records :=
           [["ID", "Amount", "Profit", "Quantity", "Category", "Sub_Category"],
            ["1", "12.5", "abc", "2", "Furniture", "Bookcases"]] }])] }

/-- A fresh warehouse whose object storage holds one CSV file with a header
record, one record that fails numeric conversion, and one record that loads
cleanly (with an empty Sub_Category field). -/
def mixedWarehouse : Warehouse :=
  { databases := [], schemas := [], fileFormats := [], stages := [],
    tables := [],
    storage := [("s3://bucketsnowflakes3/",
      [{ name := "Orders.csv",
         records :=
           [["ID", "Amount", "Profit", "Quantity", "Category", "Sub_Category"],
            ["1", "12.5", "abc", "2", "Furniture", "Bookcases"],
            ["2", "7", "8", "1", "Office", ""]] }])] }

/-- The single row `main` returns on `mixedWarehouse`. -/
def mixedResultRow : ResultRow :=
  { id := some "2", amount := some 7, profit := some 8, quantity := some 1,
    category := some "Office", sub_category := none,
    amount_num := some 7, profit_num := some 8 }

/-- A warehouse on which the stage and file format already exist (as left by
the provisioning steps), for exercising the COPY semantics directly. -/
def stagedWarehouse : Warehouse :=
  { databases := ["DATA_PIPELINE_DB"], schemas := ["DATA_PIPELINE_DB.CSV_FILES"],
    fileFormats := [(fqFileFormat defaultConfig, csvFormatSpec)],
    stages := [(fqStage defaultConfig, "s3://bucketsnowflakes3/")],
    tables := [(fqTable defaultConfig, [])],
    storage := [("s3://bucketsnowflakes3/",
      [{ name := "Orders.csv",
         records :=
           [["ID", "Amount", "Profit", "Quantity", "Category", "Sub_Category"],
            ["2", "7", "8", "1", "Office", ""]] }])] }

/-- One Python process: the module is imported (reading the environment once,
source lines 11-22) and `main` is then invoked twice.  `envAtSecondCall` is
the process environment at the time of the second invocation; `main` closes
over the constants computed at import and never consults the environment
again, so that parameter reaches no computation — which is the point at
issue. -/
def importAndRunTwice (m : String → String → Bool)
    (importEnv envAtSecondCall : Env) (w : Warehouse) :
    RunResult × RunResult :=
  let c := config importEnv
  let r1 := mainRun m c w
  let r2 := mainRun m c r1.warehouse
  (r1, r2)

lemma tables_map_fst_exec_copyInto (m : String → String → Bool)
    (w : Warehouse) (t s f p e : String) :
    (exec m w (Stmt.copyInto t s f p e)).tables.map Prod.fst =
      w.tables.map Prod.fst := by
  simp only [exec, List.map_map]
  refine List.map_congr_left ?_
  intro a _
  simp only [Function.comp_apply]
  split <;> rfl

lemma objectsOf_exec_copyInto (m : String → String → Bool)
    (w : Warehouse) (t s f p e : String) :
    objectsOf (exec m w (Stmt.copyInto t s f p e)) = objectsOf w := by
  have h := tables_map_fst_exec_copyInto m w t s f p e
  simp only [objectsOf] at h ⊢
  exact congrArg (fun l => (w.databases, w.schemas, w.fileFormats, w.stages, l)) h

lemma mem_databases_exec (m : String → String → Bool) (w : Warehouse)
    (s : Stmt) (n : String) (h : n ∈ w.databases) :
    n ∈ (exec m w s).databases := by
  cases s <;> simp only [exec] <;> first
    | (split <;> simp_all [List.mem_append])
    | exact h

lemma mem_schemas_exec (m : String → String → Bool) (w : Warehouse)
    (s : Stmt) (n : String) (h : n ∈ w.schemas) :
    n ∈ (exec m w s).schemas := by
  cases s <;> simp only [exec] <;> first
    | (split <;> simp_all [List.mem_append])
    | exact h

lemma mem_fileFormats_exec (m : String → String → Bool) (w : Warehouse)
    (s : Stmt) (n : String) (h : n ∈ w.fileFormats.map Prod.fst) :
    n ∈ (exec m w s).fileFormats.map Prod.fst := by
  cases s <;> simp only [exec] <;> first
    | (split <;> simp_all [List.map_append, List.mem_append])
    | exact h

lemma mem_stages_exec (m : String → String → Bool) (w : Warehouse)
    (s : Stmt) (n : String) (h : n ∈ w.stages.map Prod.fst) :
    n ∈ (exec m w s).stages.map Prod.fst := by
  cases s <;> simp only [exec] <;> first
    | (split <;> simp_all [List.map_append, List.mem_append])
    | exact h

lemma mem_tables_exec (m : String → String → Bool) (w : Warehouse)
    (s : Stmt) (n : String) (h : n ∈ w.tables.map Prod.fst) :
    n ∈ (exec m w s).tables.map Prod.fst := by
  cases s with
  | copyInto t st f p e => rw [tables_map_fst_exec_copyInto]; exact h
  | _ =>
      simp only [exec] <;> first
        | (split <;> simp_all [List.map_append, List.mem_append])
        | exact h

lemma mem_databases_create (m : String → String → Bool) (w : Warehouse)
    (n : String) : n ∈ (exec m w (Stmt.createDatabase n)).databases := by
  by_cases h : n ∈ w.databases <;> simp [exec, h]

lemma mem_schemas_create (m : String → String → Bool) (w : Warehouse)
    (db sch : String) :
    (db ++ "." ++ sch) ∈ (exec m w (Stmt.createSchema db sch)).schemas := by
  by_cases h : (db ++ "." ++ sch) ∈ w.schemas <;> simp [exec, h]

lemma mem_fileFormats_create (m : String → String → Bool) (w : Warehouse)
    (n : String) (spec : FileFormatSpec) :
    n ∈ (exec m w (Stmt.createFileFormat n spec)).fileFormats.map Prod.fst := by
  by_cases h : n ∈ w.fileFormats.map Prod.fst <;> simp [exec, h]

lemma mem_stages_create (m : String → String → Bool) (w : Warehouse)
    (n url f : String) :
    n ∈ (exec m w (Stmt.createStage n url f)).stages.map Prod.fst := by
  by_cases h : n ∈ w.stages.map Prod.fst <;> simp [exec, h]

lemma mem_tables_create (m : String → String → Bool) (w : Warehouse)
    (n : String) (cols : List (String × String)) :
    n ∈ (exec m w (Stmt.createTable n cols)).tables.map Prod.fst := by
  by_cases h : n ∈ w.tables.map Prod.fst <;> simp [exec, h]

lemma mainRun_warehouse_eq (m : String → String → Bool) (c : Config)
    (w : Warehouse) :
    (mainRun m c w).warehouse =
      exec m (exec m (exec m (exec m (exec m (exec m w
        (Stmt.createDatabase c.db))
        (Stmt.createSchema c.db c.schema))
        (Stmt.createFileFormat (fqFileFormat c) csvFormatSpec))
        (Stmt.createStage (fqStage c) c.s3Url (fqFileFormat c)))
        (Stmt.createTable (fqTable c) ordersColumns))
        (Stmt.copyInto (fqTable c) (fqStage c) (fqFileFormat c) c.copyPattern
          "CONTINUE") := rfl

lemma provisioned_after_run (m : String → String → Bool) (c : Config)
    (w : Warehouse) : provisioned c (mainRun m c w).warehouse := by
  rw [provisioned, mainRun_warehouse_eq]
  refine ⟨?_, ?_, ?_, ?_, ?_⟩
  · exact mem_databases_exec _ _ _ _ (mem_databases_exec _ _ _ _
      (mem_databases_exec _ _ _ _ (mem_databases_exec _ _ _ _
        (mem_databases_exec _ _ _ _ (mem_databases_create _ _ _)))))
  · exact mem_schemas_exec _ _ _ _ (mem_schemas_exec _ _ _ _
      (mem_schemas_exec _ _ _ _ (mem_schemas_exec _ _ _ _
        (mem_schemas_create _ _ _ _))))
  · exact mem_fileFormats_exec _ _ _ _ (mem_fileFormats_exec _ _ _ _
      (mem_fileFormats_exec _ _ _ _ (mem_fileFormats_create _ _ _ _)))
  · exact mem_stages_exec _ _ _ _ (mem_stages_exec _ _ _ _
      (mem_stages_create _ _ _ _ _))
  · exact mem_tables_exec _ _ _ _ (mem_tables_create _ _ _ _)

lemma objectsOf_run_of_provisioned (m : String → String → Bool) (c : Config)
    (w : Warehouse) (h : provisioned c w) :
    objectsOf (mainRun m c w).warehouse = objectsOf w := by
  obtain ⟨h1, h2, h3, h4, h5⟩ := h
  have e1 : exec m w (Stmt.createDatabase c.db) = w := by simp [exec, h1]
  have e2 : exec m w (Stmt.createSchema c.db c.schema) = w := by simp [exec, h2]
  have e3 : exec m w (Stmt.createFileFormat (fqFileFormat c) csvFormatSpec) = w := by
    simp [exec, h3]
  have e4 : exec m w (Stmt.createStage (fqStage c) c.s3Url (fqFileFormat c)) = w := by
    simp [exec, h4]
  have e5 : exec m w (Stmt.createTable (fqTable c) ordersColumns) = w := by
    simp [exec, h5]
  rw [mainRun_warehouse_eq, e1, e2, e3, e4, e5, objectsOf_exec_copyInto]

set_option maxHeartbeats 1000000 in
lemma mainRun_result_eq (m : String → String → Bool) (c : Config)
    (w : Warehouse) :
    (mainRun m c w).result =
      ((((mainRun m c w).warehouse.tables.lookup (fqTable c)).getD []).map
        transformRow).take 10 := rfl

/-- C1: `main` executes exactly the fixed linear sequence — create database,
create schema, create file format, create stage, create table, bulk copy —
each statement applied to completion before the next, with no branches and no
cycles, for every invocation (every configuration, matcher and warehouse
state), after which the read/transform/return step produces the result. -/
theorem main_issues_fixed_linear_statement_sequence
    (m : String → String → Bool) (c : Config) (w : Warehouse) :
    (mainRun m c w).trace = statements c ∧
    statements c =
      [ Stmt.createDatabase c.db
      , Stmt.createSchema c.db c.schema
      , Stmt.createFileFormat (fqFileFormat c) csvFormatSpec
      , Stmt.createStage (fqStage c) c.s3Url (fqFileFormat c)
      , Stmt.createTable (fqTable c) ordersColumns
      , Stmt.copyInto (fqTable c) (fqStage c) (fqFileFormat c) c.copyPattern
          "CONTINUE" ] ∧
    (mainRun m c w).warehouse =
      exec m (exec m (exec m (exec m (exec m (exec m w
        (Stmt.createDatabase c.db))
        (Stmt.createSchema c.db c.schema))
        (Stmt.createFileFormat (fqFileFormat c) csvFormatSpec))
        (Stmt.createStage (fqStage c) c.s3Url (fqFileFormat c)))
        (Stmt.createTable (fqTable c) ordersColumns))
        (Stmt.copyInto (fqTable c) (fqStage c) (fqFileFormat c) c.copyPattern
          "CONTINUE") ∧
    (mainRun m c w).result =
      ((((mainRun m c w).warehouse.tables.lookup (fqTable c)).getD []).map
        transformRow).take 10 :=
  ⟨rfl, rfl, mainRun_warehouse_eq m c w, mainRun_result_eq m c w⟩

/-- C2: every provisioning statement is an idempotent create, so running
`main` a second time (from the state the first run left) adds no database,
schema, file format, stage or table object: the provisioned catalog after two
runs equals the catalog after one run, and after one run every object the
script provisions is present. -/
theorem provisioning_reruns_create_no_new_objects
    (m : String → String → Bool) (c : Config) (w : Warehouse) :
    objectsOf (mainRun m c (mainRun m c w).warehouse).warehouse =
      objectsOf (mainRun m c w).warehouse ∧
    provisioned c (mainRun m c w).warehouse :=
  ⟨objectsOf_run_of_provisioned m c _ (provisioned_after_run m c w),
   provisioned_after_run m c w⟩

/-- C3: for every warehouse state, the list of rows `main` returns has at
most 10 entries, and it is empty exactly when the target table (as read back
after the load) is empty — so a non-empty table yields at least one row. -/
theorem returned_sample_bounded_and_empty_iff_table_empty
    (m : String → String → Bool) (c : Config) (w : Warehouse) :
    (mainRun m c w).result.length ≤ 10 ∧
    ((mainRun m c w).result = [] ↔
      ((mainRun m c w).warehouse.tables.lookup (fqTable c)).getD [] = []) := by
  constructor
  · rw [mainRun_result_eq]
    exact List.length_take_le 10 _
  · rw [mainRun_result_eq]
    simp [List.take_eq_nil_iff, List.map_eq_nil_iff]

/-- C4 counterexample: the claim's example fails on the code.  `Profit` is a
`NUMBER` column (source line 69), so a staged record with amount text `12.5`
and profit text `abc` fails numeric conversion during COPY and is skipped
under `ON_ERROR = CONTINUE` (source line 86): running `main` with exactly that
record staged returns the empty list — no row with `amount_num = 12.5` and
`profit_num = null` is ever produced. -/
theorem unparseable_profit_row_skipped_not_nulled :
    parseRecord csvFormatSpec
      ["1", "12.5", "abc", "2", "Furniture", "Bookcases"] = none ∧
    (mainRun matchAll defaultConfig badProfitWarehouse).result = [] := by
  exact ⟨by decide, by decide⟩

/-- C4 amended: non-numeric amount/profit text never reaches the read — such
records are skipped at load time (see the counterexample).  For every row
`main` does return, the derived column equals the stored `NUMBER` value cast
to floating point, and it is null exactly when the stored value is null
(e.g. when the source field was empty and loaded as null). -/
theorem returned_rows_numeric_from_stored
    (m : String → String → Bool) (c : Config) (w : Warehouse)
    (r : ResultRow) (h : r ∈ (mainRun m c w).result) :
    r.amount_num = r.amount.map (fun n => (n : ℚ)) ∧
    r.profit_num = r.profit.map (fun n => (n : ℚ)) ∧
    (r.amount_num = none ↔ r.amount = none) ∧
    (r.profit_num = none ↔ r.profit = none) := by
  rw [mainRun_result_eq] at h
  have h2 := List.mem_of_mem_take h
  obtain ⟨t, _, rfl⟩ := List.mem_map.mp h2
  refine ⟨rfl, rfl, ?_, ?_⟩
  · rcases ht : t.amount with _ | v <;> simp [transformRow, ht]
  · rcases ht : t.profit with _ | v <;> simp [transformRow, ht]

/-- Witness for the C4 amended theorem: on `mixedWarehouse` the run returns
the single cleanly-loaded row, and the theorem applies to it. -/
theorem returned_rows_numeric_from_stored_witness :
    mixedResultRow ∈ (mainRun matchAll defaultConfig mixedWarehouse).result ∧
    (mixedResultRow.amount_num = mixedResultRow.amount.map (fun n => (n : ℚ)) ∧
     mixedResultRow.profit_num = mixedResultRow.profit.map (fun n => (n : ℚ)) ∧
     (mixedResultRow.amount_num = none ↔ mixedResultRow.amount = none) ∧
     (mixedResultRow.profit_num = none ↔ mixedResultRow.profit = none)) :=
  ⟨by decide,
   returned_rows_numeric_from_stored matchAll defaultConfig mixedWarehouse
     mixedResultRow (by decide)⟩

/-- C5 counterexample: the claim that every column of the target table is
created as text fails — the `CREATE TABLE` statement `main` issues (source
lines 66-73) declares `Amount` (likewise `Profit` and `Quantity`) as
`NUMBER`, not as a text type. -/
theorem orders_table_not_all_text_columns :
    Stmt.createTable (fqTable defaultConfig) ordersColumns ∈
      statements defaultConfig ∧
    ("Amount", "NUMBER") ∈ ordersColumns ∧
    ordersColumns.all (fun p => p.2 = "STRING") = false := by
  exact ⟨by decide, by decide, by decide⟩

/-- C5 amended: the target table `main` creates has the fixed 6-column shape
`ID, Amount, Profit, Quantity, Category, Sub_Category` in that order, in
which `ID`, `Category` and `Sub_Category` are created as text (`STRING`) and
`Amount`, `Profit` and `Quantity` are created as numeric (`NUMBER`) columns —
values loaded into the numeric columns are converted to numbers at load time,
not kept as text. -/
theorem orders_table_fixed_schema_types (c : Config) :
    Stmt.createTable (fqTable c) ordersColumns ∈ statements c ∧
    ordersColumns =
      [("ID", "STRING"), ("Amount", "NUMBER"), ("Profit", "NUMBER"),
       ("Quantity", "NUMBER"), ("Category", "STRING"),
       ("Sub_Category", "STRING")] ∧
    (ordersColumns.filter (fun p => p.2 = "STRING")).map Prod.fst =
      ["ID", "Category", "Sub_Category"] ∧
    (ordersColumns.filter (fun p => p.2 = "NUMBER")).map Prod.fst =
      ["Amount", "Profit", "Quantity"] := by
  refine ⟨?_, by decide, by decide, by decide⟩
  simp [statements]

/-- C6 counterexample: the returned records do not carry the derived columns
under the names `amount_numeric` and `profit_numeric`; the `with_column`
calls on source lines 95-96 name them `Amount_num` and `Profit_num`. -/
theorem derived_columns_not_named_amount_numeric :
    "amount_numeric" ∉ resultColumnNames ∧
    "profit_numeric" ∉ resultColumnNames ∧
    "Amount_num" ∈ resultColumnNames ∧
    "Profit_num" ∈ resultColumnNames := by
  exact ⟨by decide, by decide, by decide, by decide⟩

/-- C6 amended: every returned record exposes exactly the six original table
columns plus the two derived columns `Amount_num` and `Profit_num` (under
those names), and on each row the derived columns carry the floating-point
cast of the stored value (null when it is null) while the six original
columns pass through unchanged. -/
theorem result_rows_expose_eight_named_columns :
    resultColumnNames =
      ["ID", "Amount", "Profit", "Quantity", "Category", "Sub_Category",
       "Amount_num", "Profit_num"] ∧
    ∀ t : TableRow,
      (transformRow t).id = t.id ∧
      (transformRow t).amount = t.amount ∧
      (transformRow t).profit = t.profit ∧
      (transformRow t).quantity = t.quantity ∧
      (transformRow t).category = t.category ∧
      (transformRow t).sub_category = t.sub_category ∧
      (transformRow t).amount_num = t.amount.map (fun n => (n : ℚ)) ∧
      (transformRow t).profit_num = t.profit.map (fun n => (n : ℚ)) := by
  exact ⟨by decide, fun t => ⟨rfl, rfl, rfl, rfl, rfl, rfl, rfl, rfl⟩⟩

/-- C7: the file format `main` creates is a CSV parsing profile with field
delimiter `,`, exactly one header record skipped, and empty fields treated as
null — both as literal clauses of the issued statement (source lines 44-48)
and in the load semantics (one record dropped per file, empty field read as
null). -/
theorem file_format_csv_profile (c : Config) :
    Stmt.createFileFormat (fqFileFormat c) csvFormatSpec ∈ statements c ∧
    csvFormatSpec.ftype = "CSV" ∧
    csvFormatSpec.fieldDelimiter = "," ∧
    csvFormatSpec.skipHeader = 1 ∧
    csvFormatSpec.emptyFieldAsNull = true ∧
    (∀ s : String, readField csvFormatSpec s =
      if s = "" then none else some s) ∧
    (∀ f : StageFile, fileRows csvFormatSpec f =
      (f.records.drop 1).filterMap (parseRecord csvFormatSpec)) := by
  refine ⟨?_, rfl, rfl, rfl, rfl, ?_, fun f => rfl⟩
  · simp [statements]
  · intro s
    simp [readField, csvFormatSpec]

/-- C8: the bulk-load statement `main` issues carries `PATTERN` set to the
configured pattern and `ON_ERROR = CONTINUE` (source lines 85-86); its
semantics copies into the table only staged objects whose names the
warehouse's matcher accepts against the pattern, and a record that fails to
parse is dropped while every other record of the load still goes through
(no abort). -/
theorem copy_restricted_to_pattern_and_continues_on_error
    (m : String → String → Bool) (c : Config) (w : Warehouse) (url : String)
    (fmt : FileFormatSpec)
    (hs : w.stages.lookup (fqStage c) = some url)
    (hf : w.fileFormats.lookup (fqFileFormat c) = some fmt) :
    Stmt.copyInto (fqTable c) (fqStage c) (fqFileFormat c) c.copyPattern
      "CONTINUE" ∈ statements c ∧
    copyNewRows m w (fqStage c) (fqFileFormat c) c.copyPattern =
      (((w.storage.lookup url).getD []).filter
        (fun f => m c.copyPattern f.name)).flatMap (fileRows fmt) ∧
    (∀ pre post : List (List String), ∀ r : List String,
      parseRecord fmt r = none →
      (pre ++ r :: post).filterMap (parseRecord fmt) =
        (pre ++ post).filterMap (parseRecord fmt)) := by
  refine ⟨by simp [statements], ?_, ?_⟩
  · simp [copyNewRows, hs, hf]
  · intro pre post r hr
    simp [List.filterMap_append, List.filterMap_cons, hr]

/-- Witness for C8: on `stagedWarehouse` the stage resolves to the default
URL and the file format to the CSV profile, and the theorem applies. -/
theorem copy_restricted_to_pattern_witness :
    stagedWarehouse.stages.lookup (fqStage defaultConfig) =
      some "s3://bucketsnowflakes3/" ∧
    stagedWarehouse.fileFormats.lookup (fqFileFormat defaultConfig) =
      some csvFormatSpec ∧
    (Stmt.copyInto (fqTable defaultConfig) (fqStage defaultConfig)
        (fqFileFormat defaultConfig) defaultConfig.copyPattern "CONTINUE" ∈
      statements defaultConfig ∧
    copyNewRows matchAll stagedWarehouse (fqStage defaultConfig)
        (fqFileFormat defaultConfig) defaultConfig.copyPattern =
      (((stagedWarehouse.storage.lookup "s3://bucketsnowflakes3/").getD
          []).filter
        (fun f => matchAll defaultConfig.copyPattern f.name)).flatMap
        (fileRows csvFormatSpec) ∧
    (∀ pre post : List (List String), ∀ r : List String,
      parseRecord csvFormatSpec r = none →
      (pre ++ r :: post).filterMap (parseRecord csvFormatSpec) =
        (pre ++ post).filterMap (parseRecord csvFormatSpec))) :=
  ⟨by decide, by decide,
   copy_restricted_to_pattern_and_continues_on_error matchAll defaultConfig
     stagedWarehouse "s3://bucketsnowflakes3/" csvFormatSpec
     (by decide) (by decide)⟩

/-- C9: each configuration value falls back to its hardcoded default when the
corresponding environment variable is unset; every qualified object name is
of the form `database.schema.object` built from the configuration bundle; and
with all defaults unset the three names resolve to
`DATA_PIPELINE_DB.CSV_FILES.csv_format`, `DATA_PIPELINE_DB.CSV_FILES.aws_stage`
and `DATA_PIPELINE_DB.CSV_FILES.ORDERS`. -/
theorem config_defaults_and_qualified_names (e : Env) :
    (e "SF_DB" = none → (config e).db = "DATA_PIPELINE_DB") ∧
    (e "SF_SCHEMA" = none → (config e).schema = "CSV_FILES") ∧
    (e "SF_FILE_FORMAT" = none → (config e).fileFormatName = "csv_format") ∧
    (e "SF_STAGE" = none → (config e).stageName = "aws_stage") ∧
    (e "SF_TABLE" = none → (config e).tableName = "ORDERS") ∧
    (e "S3_URL" = none → (config e).s3Url = "s3://bucketsnowflakes3/") ∧
    (e "COPY_PATTERN" = none → (config e).copyPattern = ".*Order.*") ∧
    fqFileFormat (config e) =
      (config e).db ++ "." ++ (config e).schema ++ "." ++
        (config e).fileFormatName ∧
    fqStage (config e) =
      (config e).db ++ "." ++ (config e).schema ++ "." ++
        (config e).stageName ∧
    fqTable (config e) =
      (config e).db ++ "." ++ (config e).schema ++ "." ++
        (config e).tableName ∧
    fqFileFormat defaultConfig = "DATA_PIPELINE_DB.CSV_FILES.csv_format" ∧
    fqStage defaultConfig = "DATA_PIPELINE_DB.CSV_FILES.aws_stage" ∧
    fqTable defaultConfig = "DATA_PIPELINE_DB.CSV_FILES.ORDERS" := by
  refine ⟨?_, ?_, ?_, ?_, ?_, ?_, ?_, rfl, rfl, rfl,
    by decide, by decide, by decide⟩ <;>
      (intro h; simp [config, getenvD, h])

/-- Witness for C9: with every environment variable unset, each field is its
default and the qualified names are the three spec values. -/
theorem config_defaults_and_qualified_names_witness :
    (config emptyEnv).db = "DATA_PIPELINE_DB" ∧
    (config emptyEnv).schema = "CSV_FILES" ∧
    (config emptyEnv).fileFormatName = "csv_format" ∧
    (config emptyEnv).stageName = "aws_stage" ∧
    (config emptyEnv).tableName = "ORDERS" ∧
    (config emptyEnv).s3Url = "s3://bucketsnowflakes3/" ∧
    (config emptyEnv).copyPattern = ".*Order.*" ∧
    fqFileFormat defaultConfig = "DATA_PIPELINE_DB.CSV_FILES.csv_format" ∧
    fqStage defaultConfig = "DATA_PIPELINE_DB.CSV_FILES.aws_stage" ∧
    fqTable defaultConfig = "DATA_PIPELINE_DB.CSV_FILES.ORDERS" := by
  obtain ⟨h1, h2, h3, h4, h5, h6, h7, _, _, _, h8, h9, h10⟩ :=
    config_defaults_and_qualified_names emptyEnv
  exact ⟨h1 rfl, h2 rfl, h3 rfl, h4 rfl, h5 rfl, h6 rfl, h7 rfl, h8, h9, h10⟩

/-- C10: the configuration is read from the environment once, at module
load (the constants of source lines 11-22); `main` closes over those
constants and never re-reads the environment, so two invocations of `main`
in the same process issue identical statement sequences and identical SQL
text, whatever the environment holds at the time of the second call. -/
theorem issued_sql_fixed_at_import_time (m : String → String → Bool)
    (importEnv envAtSecondCall : Env) (w : Warehouse) :
    (importAndRunTwice m importEnv envAtSecondCall w).1.trace.map render =
      (importAndRunTwice m importEnv envAtSecondCall w).2.trace.map render ∧
    (importAndRunTwice m importEnv envAtSecondCall w).1.trace =
      statements (config importEnv) ∧
    (importAndRunTwice m importEnv envAtSecondCall w).2.trace =
      statements (config importEnv) ∧
    ∀ otherEnv : Env,
      importAndRunTwice m importEnv otherEnv w =
        importAndRunTwice m importEnv envAtSecondCall w :=
  ⟨rfl, rfl, rfl, fun _ => rfl⟩
